import Mathlib

/-!
Shallow embedding of the homework status bot (`src/homework.py` together with
the exception classes of `src/exceptions.py`).

Python values decoded from JSON become the inductive `PyVal`; the exceptions
that can cross the main loop's `try` boundary become the inductive `PyErr`,
with `PyErr.str` playing the role of Python's `str(error)` as used by the
f-string `f'Сбой в работе программы: {error}'`.  Fallible functions return
`Except PyErr _`.  The outbound Telegram sink is abstracted, exactly as the
spec asks, to a function `String → Except String Unit` (success, or the raised
exception's text); the remote fetch `get_api_answer` is abstracted to its
per-cycle outcome `Except PyErr PyVal`.  One iteration of the `while True`
loop of `main` (homework.py lines 299-323) becomes `run_cycle`, acting on the
loop's mutable state `BotState` and reporting the messages handed to
`send_message` and the loop-level log records.
-/

namespace Homework

/-- A single-quote character, used by Python `repr` of strings and of
`KeyError` arguments. -/
def squote : String := String.singleton (Char.ofNat 39)

/-- Python values as decoded from a JSON body (homework.py works on the
result of `response.json()`).  `pynone` models Python `None`.  Floats are not
modelled: every numeric value the claims touch is an integer. -/
inductive PyVal where
  | str (s : String)
  | int (n : Int)
  | list (xs : List PyVal)
  | dict (entries : List (String × PyVal))
  | pynone

mutual

/-- Python `repr` of a value (quotes around strings, brackets around lists);
string escaping inside `repr` is not modelled, the claims only render plain
names and statuses. -/
def PyVal.reprStr : PyVal → String
  | .str s => squote ++ s ++ squote
  | .int n => toString n
  | .list xs => "[" ++ PyVal.reprListStr xs ++ "]"
  | .dict es => "\x7b" ++ PyVal.reprDictStr es ++ "\x7d"
  | .pynone => "None"

/-- `repr` of the comma-separated elements of a list. -/
def PyVal.reprListStr : List PyVal → String
  | [] => ""
  | [x] => PyVal.reprStr x
  | x :: y :: rest => PyVal.reprStr x ++ ", " ++ PyVal.reprListStr (y :: rest)

/-- `repr` of the comma-separated entries of a dict. -/
def PyVal.reprDictStr : List (String × PyVal) → String
  | [] => ""
  | [(k, v)] => squote ++ k ++ squote ++ ": " ++ PyVal.reprStr v
  | (k, v) :: e :: rest =>
      squote ++ k ++ squote ++ ": " ++ PyVal.reprStr v ++ ", " ++
        PyVal.reprDictStr (e :: rest)

end

/-- Python `str` of a value, as used by f-string interpolation: a string
renders as itself, everything else as its `repr`. -/
def PyVal.strStr : PyVal → String
  | .str s => s
  | v => v.reprStr

/-- Lookup in a Python dict modelled as an association list (`d[k]` /
`k in d` / `d.get(k)`). -/
def assocGet {α : Type} : List (String × α) → String → Option α
  | [], _ => Option.none
  | (k, v) :: rest, key => if k = key then some v else assocGet rest key

/-- Python `int(v)` restricted to the values that reach it in homework.py:
`check_response` guarantees an integer, so only the `.int` arm is ever
taken on a live path. -/
def pyIntOf : PyVal → Option Int
  | .int n => some n
  | _ => Option.none

/-- `HOMEWORK_VERDICTS` of homework.py lines 49-53. -/
def HOMEWORK_VERDICTS : List (String × String) :=
  [("approved", "Работа проверена: ревьюеру всё понравилось. Ура!"),
   ("reviewing", "Работа взята на проверку ревьюером."),
   ("rejected", "Работа проверена: у ревьюера есть замечания.")]

/-- `ENDPOINT` of homework.py line 35. -/
def ENDPOINT : String :=
  "https://practicum.yandex.ru/api/user_api/homework_statuses/"

/-- The exceptions that can reach the `except` clause of `main`
(homework.py line 313): the built-ins raised by `check_response` and
`parse_status`, the custom classes of exceptions.py, and an `otherError`
catch-all for anything else (`except Exception`). -/
inductive PyErr where
  | typeError (msg : String)
  | keyError (key : PyVal)
  | apiRequestError (endpoint : String) (code : Option Int)
  | apiResponseFormatError (detail : String)
  | unknownStatusError (status : String)
  | otherError (msg : String)

/-- Python `str(error)`: for the built-ins `TypeError`/`KeyError` the usual
renderings (note `str` of a `KeyError` is the `repr` of its argument), for
the classes of exceptions.py the message built in their `__init__`. -/
def PyErr.str : PyErr → String
  | .typeError msg => msg
  | .keyError k => k.reprStr
  | .apiRequestError endpoint code =>
      "Сбой в работе программы: Эндпоинт " ++ endpoint ++ " недоступен." ++
        (match code with
         | some c => " Код ответа API: " ++ toString c
         | Option.none => "")
  | .apiResponseFormatError d => "Некорректный формат ответа API: " ++ d
  | .unknownStatusError s =>
      "Недокументированный статус домашней работы: " ++ squote ++ s ++ squote
  | .otherError msg => msg

/-- `check_response` of homework.py lines 158-199: the response must be a
dict, contain `homeworks` and `current_date`, `homeworks` must be a list and
`current_date` a number; on success the homework list is returned. -/
def check_response (response : PyVal) : Except PyErr (List PyVal) :=
  match response with
  | .dict es =>
    match assocGet es "homeworks" with
    | Option.none => .error (.keyError (.str "homeworks"))
    | some homeworks =>
      match assocGet es "current_date" with
      | Option.none => .error (.keyError (.str "current_date"))
      | some current_date =>
        match homeworks with
        | .list hws =>
          match current_date with
          | .int _ => .ok hws
          | _ => .error (.typeError "current_date has invalid type")
        | _ => .error (.typeError "homeworks is not a list")
  | _ => .error (.typeError "Ответ API не является словарём")

/-- Membership of the status value in `HOMEWORK_VERDICTS` (homework.py line
229): only a string can equal one of the string keys. -/
def verdictOf : PyVal → Option String
  | .str s => assocGet HOMEWORK_VERDICTS s
  | _ => Option.none

/-- `parse_status` of homework.py lines 202-239: requires a dict with
`homework_name` and `status`, translates the status through
`HOMEWORK_VERDICTS` (raising `KeyError(status)` on an unknown status) and
returns the Russian message of line 239. -/
def parse_status (homework : PyVal) : Except PyErr String :=
  match homework with
  | .dict es =>
    match assocGet es "homework_name" with
    | Option.none => .error (.keyError (.str "homework_name"))
    | some nameV =>
      match assocGet es "status" with
      | Option.none => .error (.keyError (.str "status"))
      | some statusV =>
        match verdictOf statusV with
        | Option.none => .error (.keyError statusV)
        | some verdict =>
            .ok ("Изменился статус проверки работы \"" ++ nameV.strStr ++
              "\". " ++ verdict)
  | _ => .error (.typeError "homework is not a dict")

/-- Logging levels consumed by the logging sink. -/
inductive LogLevel where
  | debug
  | error
  | critical
  deriving DecidableEq

/-- One leveled log record. -/
structure LogRec where
  level : LogLevel
  text : String
  deriving DecidableEq

/-- `send_message` of homework.py lines 91-110: hand the text to the sink;
log at debug level on success, log at error level and swallow on failure.
The return type (a list of log records, no `Except`) is the embedding of
"never raises to the caller". -/
def send_message (sink : String → Except String Unit) (message : String) :
    List LogRec :=
  match sink message with
  | .ok _ => [LogRec.mk .debug ("Бот отправил сообщение: \"" ++ message ++ "\"")]
  | .error err => [LogRec.mk .error ("Сбой при отправке сообщения: " ++ err)]

/-- The mutable state of `main`'s loop (homework.py lines 295-297):
`current_timestamp`, `previous_status_message`, `previous_error_message`. -/
structure BotState where
  current_timestamp : Int
  previous_status_message : String
  previous_error_message : String
  deriving DecidableEq

/-- What one loop iteration produces besides the new state: the messages
handed to `send_message` by the loop body, and the loop-level log records. -/
structure CycleResult where
  state : BotState
  notified : List String
  logs : List LogRec
  deriving DecidableEq

/-- Prepend already-produced notifications and logs to a result (used when an
exception interrupts the `try` block after part of it already ran). -/
def CycleResult.prepend (r : CycleResult) (notified : List String)
    (logs : List LogRec) : CycleResult :=
  CycleResult.mk r.state (notified ++ r.notified) (logs ++ r.logs)

/-- The `except` clause of `main` (homework.py lines 313-321): log the
rendered error; if its text differs from `previous_error_message`, send it
and record it.  `send_message` cannot raise, so the inner `except` branch of
the source (line 320) is dead and the message is recorded in either case. -/
def handle_error (sink : String → Except String Unit) (st : BotState)
    (e : PyErr) : CycleResult :=
  let error_message := "Сбой в работе программы: " ++ e.str
  if error_message = st.previous_error_message then
    CycleResult.mk st [] [LogRec.mk .error error_message]
  else
    CycleResult.mk
      (BotState.mk st.current_timestamp st.previous_status_message
        error_message)
      [error_message]
      (LogRec.mk .error error_message :: send_message sink error_message)

/-- The timestamp advance of homework.py line 312:
`current_timestamp = int(response.get('current_date', current_timestamp))`.
The non-`.int` arms model the exceptions `int()` or `.get` would raise; they
are unreachable once `check_response` has accepted the response. -/
def finish_cycle (sink : String → Except String Unit) (response : PyVal)
    (st : BotState) (notified : List String) (logs : List LogRec) :
    CycleResult :=
  match response with
  | .dict es =>
    match assocGet es "current_date" with
    | some v =>
      match pyIntOf v with
      | some n =>
          CycleResult.mk
            (BotState.mk n st.previous_status_message
              st.previous_error_message)
            notified logs
      | Option.none =>
          (handle_error sink st (.typeError "int conversion failed")).prepend
            notified logs
    | Option.none => CycleResult.mk st notified logs
  | _ =>
      (handle_error sink st (.otherError "no attribute get")).prepend
        notified logs

/-- Lines 303-312 of homework.py, after `check_response` succeeded: if the
homework list is non-empty, translate its first record; send and record the
message when it changed, otherwise log that nothing changed; then advance the
timestamp. -/
def run_homeworks (sink : String → Except String Unit) (response : PyVal)
    (homeworks : List PyVal) (st : BotState) : CycleResult :=
  match homeworks with
  | [] =>
      finish_cycle sink response st []
        [LogRec.mk .debug "В ответе нет новых статусов."]
  | hw :: _ =>
    match parse_status hw with
    | .error e => handle_error sink st e
    | .ok status_message =>
      if status_message = st.previous_status_message then
        finish_cycle sink response st []
          [LogRec.mk .debug "Статус домашней работы не изменился."]
      else
        finish_cycle sink response
          (BotState.mk st.current_timestamp status_message
            st.previous_error_message)
          [status_message] (send_message sink status_message)

/-- Lines 301-312 of homework.py with the fetch already performed:
validate the response, then process the homework list. -/
def run_ok (sink : String → Except String Unit) (response : PyVal)
    (st : BotState) : CycleResult :=
  match check_response response with
  | .error e => handle_error sink st e
  | .ok homeworks => run_homeworks sink response homeworks st

/-- One iteration of the `while True` loop of `main` (homework.py lines
299-323), with `get_api_answer`'s outcome for this cycle supplied as
`fetch_result`.  The `finally: time.sleep(...)` has no effect on state. -/
def run_cycle (sink : String → Except String Unit)
    (fetch_result : Except PyErr PyVal) (st : BotState) : CycleResult :=
  match fetch_result with
  | .error e => handle_error sink st e
  | .ok response => run_ok sink response st

/-- Several consecutive loop iterations, one fetch outcome per cycle;
returns the final state, all notified messages and all log records in
order. -/
def run_cycles (sink : String → Except String Unit) :
    List (Except PyErr PyVal) → BotState →
      BotState × List String × List LogRec
  | [], st => (st, [], [])
  | f :: fs, st =>
    let r := run_cycle sink f st
    let rest := run_cycles sink fs r.state
    (rest.1, r.notified ++ rest.2.1, r.logs ++ rest.2.2)

/-- The exception, if any, that the fetch / validate / translate stages of a
cycle raise (stages 1-3 of the spec's PollCycle). -/
def cycle_error : Except PyErr PyVal → Option PyErr
  | .error e => some e
  | .ok response =>
    match check_response response with
    | .error e => some e
    | .ok [] => Option.none
    | .ok (hw :: _) =>
      match parse_status hw with
      | .error e => some e
      | .ok _ => Option.none

/-- A sink that accepts every message. -/
def sinkOkAll : String → Except String Unit := fun _ => .ok ()

/-- A sink whose send always raises (the text plays the raised exception). -/
def sinkFailAll : String → Except String Unit :=
  fun _ => .error "Bad Request: chat not found"

/-- Initial loop state with empty previous messages (the "prior empty state"
of the spec's scenarios), at timestamp 0. -/
def st0 : BotState := BotState.mk 0 "" ""

/-! ### Basic lemmas about the pieces of the loop -/

theorem handle_error_timestamp (sink : String → Except String Unit)
    (st : BotState) (e : PyErr) :
    (handle_error sink st e).state.current_timestamp = st.current_timestamp := by
  simp only [handle_error]
  split <;> rfl

theorem handle_error_prev_status (sink : String → Except String Unit)
    (st : BotState) (e : PyErr) :
    (handle_error sink st e).state.previous_status_message
      = st.previous_status_message := by
  simp only [handle_error]
  split <;> rfl

theorem handle_error_prev_error (sink : String → Except String Unit)
    (st : BotState) (e : PyErr) :
    (handle_error sink st e).state.previous_error_message
      = "Сбой в работе программы: " ++ e.str := by
  simp only [handle_error]
  split
  case isTrue h => exact h.symm
  case isFalse h => rfl

theorem handle_error_notified (sink : String → Except String Unit)
    (st : BotState) (e : PyErr) :
    (handle_error sink st e).notified
      = if "Сбой в работе программы: " ++ e.str = st.previous_error_message
        then [] else ["Сбой в работе программы: " ++ e.str] := by
  simp only [handle_error]
  split
  case isTrue h => simp [h]
  case isFalse h => simp [h]

theorem handle_error_log_mem (sink : String → Except String Unit)
    (st : BotState) (e : PyErr) :
    LogRec.mk .error ("Сбой в работе программы: " ++ e.str)
      ∈ (handle_error sink st e).logs := by
  simp only [handle_error]
  split <;> simp

/-- Shape of a response accepted by `check_response`: a dict whose
`homeworks` entry is the returned list and whose `current_date` entry is an
integer. -/
theorem check_ok_shape (response : PyVal) (hws : List PyVal)
    (h : check_response response = .ok hws) :
    ∃ es n, response = .dict es ∧
      assocGet es "homeworks" = some (.list hws) ∧
      assocGet es "current_date" = some (.int n) := by
  cases response with
  | dict es =>
    cases h1 : assocGet es "homeworks" with
    | none => simp [check_response, h1] at h
    | some homeworks =>
      cases h2 : assocGet es "current_date" with
      | none => simp [check_response, h1, h2] at h
      | some current_date =>
        cases homeworks with
        | list xs =>
          cases current_date with
          | int n =>
            simp only [check_response, h1, h2, Except.ok.injEq] at h
            exact ⟨es, n, rfl, by rw [h1, h], h2⟩
          | str s => simp [check_response, h1, h2] at h
          | list ys => simp [check_response, h1, h2] at h
          | dict ds => simp [check_response, h1, h2] at h
          | pynone => simp [check_response, h1, h2] at h
        | str s => simp [check_response, h1, h2] at h
        | int n => simp [check_response, h1, h2] at h
        | dict ds => simp [check_response, h1, h2] at h
        | pynone => simp [check_response, h1, h2] at h
  | str s => simp [check_response] at h
  | int n => simp [check_response] at h
  | list xs => simp [check_response] at h
  | pynone => simp [check_response] at h

/-- On a response whose `current_date` entry is an integer, the timestamp
advance of line 312 sets `current_timestamp` to that integer and touches
nothing else. -/
theorem finish_cycle_ok (sink : String → Except String Unit)
    (es : List (String × PyVal)) (n : Int) (st : BotState)
    (notified : List String) (logs : List LogRec)
    (h : assocGet es "current_date" = some (.int n)) :
    finish_cycle sink (.dict es) st notified logs
      = CycleResult.mk
          (BotState.mk n st.previous_status_message st.previous_error_message)
          notified logs := by
  simp only [finish_cycle, h, pyIntOf]

/-- A successful cycle whose translated first message differs from the
stored one: the message is sent and recorded, the timestamp advances. -/
theorem run_cycle_changed (sink : String → Except String Unit) (st : BotState)
    (es : List (String × PyVal)) (hw : PyVal) (rest : List PyVal) (m : String)
    (n : Int)
    (hc : check_response (.dict es) = .ok (hw :: rest))
    (hcd : assocGet es "current_date" = some (.int n))
    (hp : parse_status hw = .ok m)
    (hm : m ≠ st.previous_status_message) :
    run_cycle sink (.ok (.dict es)) st
      = CycleResult.mk (BotState.mk n m st.previous_error_message) [m]
          (send_message sink m) := by
  simp only [run_cycle, run_ok, hc, run_homeworks, hp]
  rw [if_neg hm,
    finish_cycle_ok sink es n
      (BotState.mk st.current_timestamp m st.previous_error_message) _ _ hcd]

/-- A successful cycle whose translated first message equals the stored one:
nothing is sent, only the timestamp advances. -/
theorem run_cycle_unchanged (sink : String → Except String Unit)
    (st : BotState) (es : List (String × PyVal)) (hw : PyVal)
    (rest : List PyVal) (m : String) (n : Int)
    (hc : check_response (.dict es) = .ok (hw :: rest))
    (hcd : assocGet es "current_date" = some (.int n))
    (hp : parse_status hw = .ok m)
    (hm : m = st.previous_status_message) :
    run_cycle sink (.ok (.dict es)) st
      = CycleResult.mk
          (BotState.mk n st.previous_status_message st.previous_error_message)
          [] [LogRec.mk .debug "Статус домашней работы не изменился."] := by
  simp only [run_cycle, run_ok, hc, run_homeworks, hp]
  rw [if_pos hm, finish_cycle_ok sink es n st _ _ hcd]

/-- A cycle one of whose first three stages raises `e` runs the `except`
clause on the entry state. -/
theorem run_cycle_of_error (sink : String → Except String Unit)
    (st : BotState) (fr : Except PyErr PyVal) (e : PyErr)
    (h : cycle_error fr = some e) :
    run_cycle sink fr st = handle_error sink st e := by
  cases fr with
  | error e0 =>
    simp only [cycle_error, Option.some.injEq] at h
    simp only [run_cycle, h]
  | ok response =>
    simp only [run_cycle, run_ok]
    cases hc : check_response response with
    | error e1 =>
      simp only [cycle_error, hc, Option.some.injEq] at h
      dsimp only
      rw [h]
    | ok homeworks =>
      cases homeworks with
      | nil => simp [cycle_error, hc] at h
      | cons hw rest =>
        simp only [run_homeworks]
        cases hp : parse_status hw with
        | error e2 =>
          simp only [cycle_error, hc, hp, Option.some.injEq] at h
          dsimp only
          rw [h]
        | ok m => simp [cycle_error, hc, hp] at h

/-! ### The claims -/

/-- C8: for every sink and every message, `send_message` never raises to its
caller (its return type carries no exception): on a successful send it logs
the sent message at debug level, and on any failure of the sink's send it
logs the failure at error level and swallows it. -/
theorem C8_notifier_never_raises (sink : String → Except String Unit)
    (message : String) :
    (sink message = .ok () →
      send_message sink message
        = [LogRec.mk .debug ("Бот отправил сообщение: \"" ++ message ++ "\"")]) ∧
    (∀ err, sink message = .error err →
      send_message sink message
        = [LogRec.mk .error ("Сбой при отправке сообщения: " ++ err)]) := by
  constructor
  · intro h
    simp only [send_message, h]
  · intro err h
    simp only [send_message, h]

/-- C8 witness: concrete runs on an accepting and on a failing sink. -/
theorem C8_witness :
    send_message sinkOkAll "hi"
        = [LogRec.mk .debug "Бот отправил сообщение: \"hi\""] ∧
    send_message sinkFailAll "hi"
        = [LogRec.mk .error
            "Сбой при отправке сообщения: Bad Request: chat not found"] :=
  ⟨(C8_notifier_never_raises sinkOkAll "hi").1 rfl,
   (C8_notifier_never_raises sinkFailAll "hi").2 "Bad Request: chat not found" rfl⟩

/-- C4: whenever the fetch, validation or translation stage of a cycle
raises, the cycle aborts through the `except` clause and `current_timestamp`
keeps its prior value. -/
theorem C4_failed_cycle_keeps_timestamp (sink : String → Except String Unit)
    (st : BotState) (fr : Except PyErr PyVal) (e : PyErr)
    (h : cycle_error fr = some e) :
    (run_cycle sink fr st).state.current_timestamp = st.current_timestamp := by
  cases fr with
  | error e0 => exact handle_error_timestamp sink st e0
  | ok response =>
    simp only [run_cycle, run_ok]
    cases hc : check_response response with
    | error e1 => exact handle_error_timestamp sink st e1
    | ok homeworks =>
      cases homeworks with
      | nil => simp [cycle_error, hc] at h
      | cons hw rest =>
        simp only [run_homeworks]
        cases hp : parse_status hw with
        | error e2 => exact handle_error_timestamp sink st e2
        | ok m => simp [cycle_error, hc, hp] at h

/-- C4 witness: a response missing the `homeworks` key aborts the cycle and
the timestamp stays 0. -/
theorem C4_witness :
    ((run_cycle sinkOkAll (.ok (.dict [("current_date", .int 1)]))
        st0).state).current_timestamp = st0.current_timestamp :=
  C4_failed_cycle_keeps_timestamp sinkOkAll st0
    (.ok (.dict [("current_date", .int 1)])) (.keyError (.str "homeworks")) rfl

/-- C7: a cycle in which no stage raises sets `current_timestamp` to the
response's `current_date` value (an integer guaranteed by `check_response`);
the `.get` fallback of line 312 keeps the previous timestamp when the key is
absent; and a successful cycle with an empty homework list notifies
nothing. -/
theorem C7_success_advances_timestamp (sink : String → Except String Unit)
    (st : BotState) (response : PyVal)
    (h : cycle_error (.ok response) = Option.none) :
    (∃ es n, response = PyVal.dict es ∧
        assocGet es "current_date" = some (.int n) ∧
        (run_cycle sink (.ok response) st).state.current_timestamp = n) ∧
    (∀ es, assocGet es "current_date" = (Option.none : Option PyVal) →
      (finish_cycle sink (.dict es) st [] []).state.current_timestamp
        = st.current_timestamp) ∧
    (check_response response = .ok [] →
      (run_cycle sink (.ok response) st).notified = []) := by
  refine ⟨?_, ?_, ?_⟩
  · cases hc : check_response response with
    | error e1 => simp [cycle_error, hc] at h
    | ok homeworks =>
      obtain ⟨es, n, hresp, hh, hcd⟩ := check_ok_shape response homeworks hc
      refine ⟨es, n, hresp, hcd, ?_⟩
      subst hresp
      simp only [run_cycle, run_ok, hc]
      cases homeworks with
      | nil =>
        simp only [run_homeworks, finish_cycle_ok sink es n st _ _ hcd]
      | cons hw rest =>
        simp only [run_homeworks]
        cases hp : parse_status hw with
        | error e2 => simp [cycle_error, hc, hp] at h
        | ok m =>
          dsimp only
          by_cases hm : m = st.previous_status_message
          · rw [if_pos hm, finish_cycle_ok sink es n st _ _ hcd]
          · rw [if_neg hm,
              finish_cycle_ok sink es n
                (BotState.mk st.current_timestamp m st.previous_error_message)
                _ _ hcd]
  · intro es hnone
    simp only [finish_cycle, hnone]
  · intro hc
    obtain ⟨es, n, hresp, hh, hcd⟩ := check_ok_shape response [] hc
    subst hresp
    simp only [run_cycle, run_ok, hc, run_homeworks,
      finish_cycle_ok sink es n st _ _ hcd]

/-- C1 counterexample: translation of a well-formed approved record yields
the Russian template of homework.py line 239, not the claimed English
literal; and the claimed scenario record uses the key `name`, which
`parse_status` rejects, so that cycle notifies the `KeyError` text instead of
a status message and leaves the timestamp at its prior value 0 instead of
1700000000. -/
theorem C1_counterexample :
    parse_status
        (.dict [("homework_name", .str "task1"), ("status", .str "approved")])
      ≠ .ok "Status changed for submission \"task1\". Работа проверена: ревьюеру всё понравилось. Ура!" ∧
    (run_cycle sinkOkAll
        (.ok (.dict [("homeworks",
            .list [.dict [("name", .str "task1"), ("status", .str "approved")]]),
          ("current_date", .int 1700000000)])) st0).notified
      = ["Сбой в работе программы: " ++ squote ++ "homework_name" ++ squote] ∧
    ((run_cycle sinkOkAll
        (.ok (.dict [("homeworks",
            .list [.dict [("name", .str "task1"), ("status", .str "approved")]]),
          ("current_date", .int 1700000000)])) st0).state).current_timestamp
      = 0 := by
  refine ⟨?_, by decide, by decide⟩
  intro hEq
  exact absurd (Except.ok.inj hEq) (by decide)

/-- C1 (amended): for every homework record containing the fields the
translator requires (`homework_name` and a string `status`) with the status
in the verdict mapping, translation returns exactly
`Изменился статус проверки работы "{homework_name}". {verdict}`; and the
cycle receiving the response with record
`{"homework_name": "task1", "status": "approved"}` and `current_date`
1700000000 from the prior empty state notifies exactly that text and sets
the timestamp to 1700000000. -/
theorem C1_amended_translation (es : List (String × PyVal)) (nameV : PyVal)
    (s verdict : String)
    (hn : assocGet es "homework_name" = some nameV)
    (hs : assocGet es "status" = some (.str s))
    (hv : assocGet HOMEWORK_VERDICTS s = some verdict) :
    parse_status (.dict es)
      = .ok ("Изменился статус проверки работы \"" ++ nameV.strStr ++
          "\". " ++ verdict) ∧
    (run_cycle sinkOkAll
        (.ok (.dict [("homeworks",
            .list [.dict [("homework_name", .str "task1"),
                          ("status", .str "approved")]]),
          ("current_date", .int 1700000000)])) st0).notified
      = ["Изменился статус проверки работы \"task1\". Работа проверена: ревьюеру всё понравилось. Ура!"] ∧
    ((run_cycle sinkOkAll
        (.ok (.dict [("homeworks",
            .list [.dict [("homework_name", .str "task1"),
                          ("status", .str "approved")]]),
          ("current_date", .int 1700000000)])) st0).state).current_timestamp
      = 1700000000 := by
  refine ⟨?_, by decide, by decide⟩
  simp only [parse_status, hn, hs, verdictOf, hv]

/-- C1 witness: the amended translation at the approved record. -/
theorem C1_witness :
    parse_status
        (.dict [("homework_name", .str "task1"), ("status", .str "approved")])
      = .ok "Изменился статус проверки работы \"task1\". Работа проверена: ревьюеру всё понравилось. Ура!" :=
  (C1_amended_translation
    [("homework_name", .str "task1"), ("status", .str "approved")]
    (.str "task1") "approved" "Работа проверена: ревьюеру всё понравилось. Ура!"
    rfl rfl rfl).1

/-- C2 counterexample: on the record with unknown status `weird`,
`parse_status` raises `KeyError('weird')` (homework.py line 236), not
`UnknownStatusError` — the class of exceptions.py is imported but never
raised. -/
theorem C2_counterexample :
    parse_status (.dict [("homework_name", .str "t"), ("status", .str "weird")])
      = .error (.keyError (.str "weird")) ∧
    parse_status (.dict [("homework_name", .str "t"), ("status", .str "weird")])
      ≠ .error (.unknownStatusError "weird") := by
  refine ⟨rfl, ?_⟩
  intro hEq
  exact PyErr.noConfusion (Except.error.inj hEq)

/-- C2 (amended): for every record whose string status is not a key of the
verdict mapping, translation fails with `KeyError` carrying that status, and
in the cycle processing such a record every notified message is the rendered
loop error, never a status notification for the record. -/
theorem C2_amended_unknown_status (es : List (String × PyVal)) (nameV : PyVal)
    (s : String)
    (hn : assocGet es "homework_name" = some nameV)
    (hs : assocGet es "status" = some (.str s))
    (hv : assocGet HOMEWORK_VERDICTS s = Option.none) :
    parse_status (.dict es) = .error (.keyError (.str s)) ∧
    ∀ (sink : String → Except String Unit) (st : BotState) (response : PyVal)
      (rest : List PyVal),
      check_response response = .ok (PyVal.dict es :: rest) →
      ∀ msg ∈ (run_cycle sink (.ok response) st).notified,
        msg = "Сбой в работе программы: " ++ squote ++ s ++ squote := by
  have hps : parse_status (.dict es) = .error (.keyError (.str s)) := by
    simp only [parse_status, hn, hs, verdictOf, hv]
  refine ⟨hps, ?_⟩
  intro sink st response rest hc msg hmem
  have he : cycle_error (.ok response) = some (.keyError (.str s)) := by
    simp only [cycle_error, hc, hps]
  rw [run_cycle_of_error sink st _ _ he, handle_error_notified] at hmem
  split at hmem
  · exact absurd hmem (List.not_mem_nil msg)
  · rw [List.mem_singleton.mp hmem]
    rfl

/-- C2 witness: the amended statement at the `weird`-status record inside a
full cycle from the empty state. -/
theorem C2_witness :
    parse_status (.dict [("homework_name", .str "t"), ("status", .str "weird")])
      = .error (.keyError (.str "weird")) ∧
    ("Сбой в работе программы: " ++ squote ++ "weird" ++ squote)
      = "Сбой в работе программы: " ++ squote ++ "weird" ++ squote :=
  ⟨(C2_amended_unknown_status
      [("homework_name", .str "t"), ("status", .str "weird")]
      (.str "t") "weird" rfl rfl rfl).1,
   (C2_amended_unknown_status
      [("homework_name", .str "t"), ("status", .str "weird")]
      (.str "t") "weird" rfl rfl rfl).2 sinkOkAll st0
      (.dict [("homeworks",
          .list [.dict [("homework_name", .str "t"), ("status", .str "weird")]]),
        ("current_date", .int 1)])
      [] rfl _ (by decide)⟩

/-- C3 counterexample: a non-mapping input makes `check_response` raise
`TypeError('Ответ API не является словарём')` (homework.py line 176), not an
`APIResponseFormatError` (the code's schema-error class, the spec's
`SchemaError`); and the required key is `current_date`, so a response
carrying `currentDate` instead still fails with `KeyError('current_date')`. -/
theorem C3_counterexample :
    check_response (.str "x")
      = .error (.typeError "Ответ API не является словарём") ∧
    check_response (.str "x")
      ≠ .error (.apiResponseFormatError "not a mapping") ∧
    check_response (.dict [("homeworks", .list []), ("currentDate", .int 5)])
      = .error (.keyError (.str "current_date")) := by
  refine ⟨rfl, ?_, rfl⟩
  intro hEq
  exact PyErr.noConfusion (Except.error.inj hEq)

/-- C3 (amended): validation fails with
`TypeError('Ответ API не является словарём')` when the input is not a
mapping, and with `KeyError` naming the missing field when the `homeworks`
or `current_date` key is absent. -/
theorem C3_amended_validator_errors :
    (∀ v : PyVal, (∀ es, v ≠ .dict es) →
      check_response v
        = .error (.typeError "Ответ API не является словарём")) ∧
    (∀ es, assocGet es "homeworks" = (Option.none : Option PyVal) →
      check_response (.dict es) = .error (.keyError (.str "homeworks"))) ∧
    (∀ es hv, assocGet es "homeworks" = some hv →
      assocGet es "current_date" = (Option.none : Option PyVal) →
      check_response (.dict es) = .error (.keyError (.str "current_date"))) := by
  refine ⟨?_, ?_, ?_⟩
  · intro v hnd
    cases v with
    | dict es => exact absurd rfl (hnd es)
    | str s => rfl
    | int n => rfl
    | list xs => rfl
    | pynone => rfl
  · intro es h
    simp only [check_response, h]
  · intro es hv h1 h2
    simp only [check_response, h1, h2]

/-- C3 witness: the amended statement at a non-mapping, at a response
without `homeworks`, and at a response without `current_date`. -/
theorem C3_witness :
    check_response (.str "x")
      = .error (.typeError "Ответ API не является словарём") ∧
    check_response (.dict [("current_date", .int 5)])
      = .error (.keyError (.str "homeworks")) ∧
    check_response (.dict [("homeworks", .list [])])
      = .error (.keyError (.str "current_date")) :=
  ⟨C3_amended_validator_errors.1 (.str "x") (fun _ h => PyVal.noConfusion h),
   C3_amended_validator_errors.2.1 [("current_date", .int 5)] rfl,
   C3_amended_validator_errors.2.2 [("homeworks", .list [])] (.list []) rfl rfl⟩

/-- C5: for a valid response whose first record translates to `m`, the cycle
notifies exactly `[m]` and records `m` when `m` differs from the stored last
status message, and notifies nothing when it equals it; hence two identical
successful cycles in a row notify on the first cycle only. -/
theorem C5_change_detection (sink : String → Except String Unit)
    (st : BotState) (response hw : PyVal) (rest : List PyVal) (m : String)
    (hc : check_response response = .ok (hw :: rest))
    (hp : parse_status hw = .ok m) :
    ((m ≠ st.previous_status_message →
        (run_cycle sink (.ok response) st).notified = [m] ∧
        ((run_cycle sink (.ok response) st).state).previous_status_message
          = m) ∧
      (m = st.previous_status_message →
        (run_cycle sink (.ok response) st).notified = [])) ∧
    (run_cycles sink [.ok response, .ok response] st).2.1
      = if m = st.previous_status_message then [] else [m] := by
  obtain ⟨es, n, hresp, hh, hcd⟩ := check_ok_shape response _ hc
  subst hresp
  refine ⟨⟨?_, ?_⟩, ?_⟩
  · intro hm
    rw [run_cycle_changed sink st es hw rest m n hc hcd hp hm]
    exact ⟨rfl, rfl⟩
  · intro hm
    rw [run_cycle_unchanged sink st es hw rest m n hc hcd hp hm]
  · by_cases hm : m = st.previous_status_message
    · rw [if_pos hm]
      simp only [run_cycles]
      rw [run_cycle_unchanged sink st es hw rest m n hc hcd hp hm]
      dsimp only
      rw [run_cycle_unchanged sink
        (BotState.mk n st.previous_status_message st.previous_error_message)
        es hw rest m n hc hcd hp hm]
      rfl
    · rw [if_neg hm]
      simp only [run_cycles]
      rw [run_cycle_changed sink st es hw rest m n hc hcd hp hm]
      dsimp only
      rw [run_cycle_unchanged sink
        (BotState.mk n m st.previous_error_message)
        es hw rest m n hc hcd hp rfl]
      rfl

/-- C5 witness: the approved-homework response, run twice from the empty
state over an accepting sink, notifies once. -/
theorem C5_witness :
    (run_cycles sinkOkAll
        [.ok (.dict [("homeworks",
            .list [.dict [("homework_name", .str "task1"),
                          ("status", .str "approved")]]),
          ("current_date", .int 1700000000)]),
         .ok (.dict [("homeworks",
            .list [.dict [("homework_name", .str "task1"),
                          ("status", .str "approved")]]),
          ("current_date", .int 1700000000)])] st0).2.1
      = ["Изменился статус проверки работы \"task1\". Работа проверена: ревьюеру всё понравилось. Ура!"] := by
  have h := (C5_change_detection sinkOkAll st0
    (.dict [("homeworks",
        .list [.dict [("homework_name", .str "task1"),
                      ("status", .str "approved")]]),
      ("current_date", .int 1700000000)])
    (.dict [("homework_name", .str "task1"), ("status", .str "approved")])
    [] _ rfl rfl).2
  rw [h]
  rfl

/-- C6: two consecutive failing cycles whose rendered error texts coincide
notify that text at most once, while each of the two cycles still logs it at
error level. -/
theorem C6_repeated_error_notified_once (sink : String → Except String Unit)
    (st : BotState) (e e' : PyErr) (h : PyErr.str e = PyErr.str e') :
    List.count ("Сбой в работе программы: " ++ PyErr.str e)
        ((run_cycle sink (.error e) st).notified ++
          (run_cycle sink (.error e')
            ((run_cycle sink (.error e) st).state)).notified) ≤ 1 ∧
    LogRec.mk .error ("Сбой в работе программы: " ++ PyErr.str e)
      ∈ (run_cycle sink (.error e) st).logs ∧
    LogRec.mk .error ("Сбой в работе программы: " ++ PyErr.str e)
      ∈ (run_cycle sink (.error e')
          ((run_cycle sink (.error e) st).state)).logs := by
  simp only [run_cycle]
  have hs1 := handle_error_prev_error sink st e
  have h2 : (handle_error sink ((handle_error sink st e).state) e').notified
      = [] := by
    rw [handle_error_notified, if_pos]
    rw [hs1, h]
  refine ⟨?_, ?_, ?_⟩
  · rw [h2, List.append_nil, handle_error_notified]
    split
    · simp
    · simp
  · exact handle_error_log_mem sink st e
  · rw [h]
    exact handle_error_log_mem sink _ e'

/-- C6 witness: two cycles failing with equally rendered fetch errors notify
the text once and log it in both cycles. -/
theorem C6_witness :
    List.count "Сбой в работе программы: Сбой в работе программы: Эндпоинт x недоступен. Код ответа API: 500"
        ((run_cycle sinkOkAll (.error (.apiRequestError "x" (some 500))) st0).notified ++
          (run_cycle sinkOkAll (.error (.apiRequestError "x" (some 500)))
            ((run_cycle sinkOkAll (.error (.apiRequestError "x" (some 500))) st0).state)).notified) ≤ 1 ∧
    LogRec.mk .error "Сбой в работе программы: Сбой в работе программы: Эндпоинт x недоступен. Код ответа API: 500"
      ∈ (run_cycle sinkOkAll (.error (.apiRequestError "x" (some 500))) st0).logs ∧
    LogRec.mk .error "Сбой в работе программы: Сбой в работе программы: Эндпоинт x недоступен. Код ответа API: 500"
      ∈ (run_cycle sinkOkAll (.error (.apiRequestError "x" (some 500)))
          ((run_cycle sinkOkAll (.error (.apiRequestError "x" (some 500))) st0).state)).logs :=
  C6_repeated_error_notified_once sinkOkAll st0
    (.apiRequestError "x" (some 500)) (.apiRequestError "x" (some 500)) rfl

/-- C9: when the sink's send fails on a new status message, the failure is
swallowed (the cycle still completes, logging the send failure at error
level), the message is nevertheless recorded as the last status message, and
an identical following cycle does not re-attempt it. -/
theorem C9_failed_send_still_recorded (sink : String → Except String Unit)
    (st : BotState) (response hw : PyVal) (rest : List PyVal) (m err : String)
    (hc : check_response response = .ok (hw :: rest))
    (hp : parse_status hw = .ok m)
    (hm : m ≠ st.previous_status_message)
    (hfail : sink m = .error err) :
    ((run_cycle sink (.ok response) st).state).previous_status_message = m ∧
    LogRec.mk .error ("Сбой при отправке сообщения: " ++ err)
      ∈ (run_cycle sink (.ok response) st).logs ∧
    (run_cycle sink (.ok response)
        ((run_cycle sink (.ok response) st).state)).notified = [] := by
  obtain ⟨es, n, hresp, hh, hcd⟩ := check_ok_shape response _ hc
  subst hresp
  rw [run_cycle_changed sink st es hw rest m n hc hcd hp hm]
  refine ⟨rfl, ?_, ?_⟩
  · simp [send_message, hfail]
  · dsimp only
    rw [run_cycle_unchanged sink (BotState.mk n m st.previous_error_message)
      es hw rest m n hc hcd hp rfl]

/-- C9 witness: the approved-homework response over the always-failing sink
records the undelivered message and does not re-attempt it. -/
theorem C9_witness :
    ((run_cycle sinkFailAll
        (.ok (.dict [("homeworks",
            .list [.dict [("homework_name", .str "task1"),
                          ("status", .str "approved")]]),
          ("current_date", .int 1700000000)])) st0).state).previous_status_message
      = "Изменился статус проверки работы \"task1\". Работа проверена: ревьюеру всё понравилось. Ура!" :=
  (C9_failed_send_still_recorded sinkFailAll st0
    (.dict [("homeworks",
        .list [.dict [("homework_name", .str "task1"),
                      ("status", .str "approved")]]),
      ("current_date", .int 1700000000)])
    (.dict [("homework_name", .str "task1"), ("status", .str "approved")])
    [] _ "Bad Request: chat not found" rfl rfl (by decide) rfl).1

/-- C10: the stored last error message is never cleared: a cycle in which no
stage raises leaves it unchanged, a failing cycle sets it to the rendered
error text, and a failing cycle whose rendered text already equals the
stored one notifies nothing. -/
theorem C10_error_message_persists (sink : String → Except String Unit)
    (st : BotState) :
    (∀ fr : Except PyErr PyVal, cycle_error fr = Option.none →
      ((run_cycle sink fr st).state).previous_error_message
        = st.previous_error_message) ∧
    (∀ fr e, cycle_error fr = some e →
      ((run_cycle sink fr st).state).previous_error_message
        = "Сбой в работе программы: " ++ PyErr.str e) ∧
    (∀ fr e, cycle_error fr = some e →
      st.previous_error_message = "Сбой в работе программы: " ++ PyErr.str e →
      (run_cycle sink fr st).notified = []) := by
  refine ⟨?_, ?_, ?_⟩
  · intro fr h
    cases fr with
    | error e0 => simp [cycle_error] at h
    | ok response =>
      cases hc : check_response response with
      | error e1 => simp [cycle_error, hc] at h
      | ok homeworks =>
        obtain ⟨es, n, hresp, hh, hcd⟩ := check_ok_shape response homeworks hc
        subst hresp
        cases homeworks with
        | nil =>
          simp only [run_cycle, run_ok, hc, run_homeworks,
            finish_cycle_ok sink es n st _ _ hcd]
        | cons hw rest =>
          cases hp : parse_status hw with
          | error e2 => simp [cycle_error, hc, hp] at h
          | ok m =>
            by_cases hm : m = st.previous_status_message
            · rw [run_cycle_unchanged sink st es hw rest m n hc hcd hp hm]
            · rw [run_cycle_changed sink st es hw rest m n hc hcd hp hm]
  · intro fr e h
    rw [run_cycle_of_error sink st fr e h]
    exact handle_error_prev_error sink st e
  · intro fr e h heq
    rw [run_cycle_of_error sink st fr e h, handle_error_notified,
      if_pos heq.symm]

/-- C10 witness: after a failing cycle over an unknown status, a successful
cycle, and the same failing cycle again, the error text is notified only in
the first of the three cycles. -/
theorem C10_witness :
    ((run_cycle sinkOkAll
        (.ok (.dict [("homeworks",
            .list [.dict [("homework_name", .str "t"),
                          ("status", .str "unknown")]]),
          ("current_date", .int 1)])) st0).state).previous_error_message
      = "Сбой в работе программы: " ++
          PyErr.str (.keyError (.str "unknown")) ∧
    ((run_cycle sinkOkAll
        (.ok (.dict [("homeworks", .list []), ("current_date", .int 2)]))
        (BotState.mk 0 ""
          ("Сбой в работе программы: " ++
            PyErr.str (.keyError (.str "unknown"))))).state).previous_error_message
      = "Сбой в работе программы: " ++
          PyErr.str (.keyError (.str "unknown")) ∧
    (run_cycle sinkOkAll
        (.ok (.dict [("homeworks",
            .list [.dict [("homework_name", .str "t"),
                          ("status", .str "unknown")]]),
          ("current_date", .int 1)]))
        (BotState.mk 2 ""
          ("Сбой в работе программы: " ++
            PyErr.str (.keyError (.str "unknown"))))).notified = [] :=
  ⟨(C10_error_message_persists sinkOkAll st0).2.1 _
      (.keyError (.str "unknown")) rfl,
   (C10_error_message_persists sinkOkAll
      (BotState.mk 0 ""
        ("Сбой в работе программы: " ++
          PyErr.str (.keyError (.str "unknown"))))).1 _ rfl,
   (C10_error_message_persists sinkOkAll
      (BotState.mk 2 ""
        ("Сбой в работе программы: " ++
          PyErr.str (.keyError (.str "unknown"))))).2.2 _
      (.keyError (.str "unknown")) rfl rfl⟩

/-- C7 witness: the spec's scenario, a valid response with an empty homework
list and `current_date` 1700000100, notifies nothing and advances the
timestamp to 1700000100. -/
theorem C7_witness :
    (run_cycle sinkOkAll
        (.ok (.dict [("homeworks", .list []), ("current_date", .int 1700000100)]))
        st0).state.current_timestamp = 1700000100 ∧
    (run_cycle sinkOkAll
        (.ok (.dict [("homeworks", .list []), ("current_date", .int 1700000100)]))
        st0).notified = [] := by
  have h := C7_success_advances_timestamp sinkOkAll st0
    (.dict [("homeworks", .list []), ("current_date", .int 1700000100)]) rfl
  exact ⟨by rfl, h.2.2 rfl⟩

end Homework
